import Mathlib

/-!
Verification of the Iron Condor tracker (`src/app.py`) against its
natural-language specification.

The Python source is shallowly embedded: prices and quantities are
modelled as rationals (`ℚ`), Python dictionaries as association lists,
Python `None`/exceptions as `Option`, and the background-thread /
wall-clock parts of the authentication wait loop as an explicit trace
of the shared `auth_code_received` variable over poll ticks.
-/

namespace IronCondor

/-- Output value object of `calculate_iron_condor` (`src/app.py:123-152`):
the dictionary returned by the function, one field per key. -/
structure CondorMetrics where
  call_premium_diff : ℚ
  call_max_profit : ℚ
  call_sl : ℚ
  call_target : ℚ
  put_premium_diff : ℚ
  put_max_profit : ℚ
  put_sl : ℚ
  put_target : ℚ
  total_max_profit : ℚ
  avg_premium : ℚ
  deriving Repr, DecidableEq

/-- Embedding of `calculate_iron_condor` (`src/app.py:123-152`).
Each local binding mirrors one assignment in the Python body. -/
def calculate_iron_condor (call_sell_ltp call_buy_ltp put_sell_ltp put_buy_ltp
    lot_size min_qty : ℚ) : CondorMetrics :=
  let call_premium_diff := call_sell_ltp - call_buy_ltp
  let call_max_profit := call_premium_diff * lot_size * min_qty
  let call_sl := call_max_profit * 3
  let call_target := call_max_profit * 1.5
  let put_premium_diff := put_sell_ltp - put_buy_ltp
  let put_max_profit := put_premium_diff * lot_size * min_qty
  let put_sl := put_max_profit * 3
  let put_target := put_max_profit * 1.5
  let total_max_profit := call_max_profit + put_max_profit
  let avg_premium := (call_premium_diff + put_premium_diff) / 2
  { call_premium_diff := call_premium_diff
    call_max_profit := call_max_profit
    call_sl := call_sl
    call_target := call_target
    put_premium_diff := put_premium_diff
    put_max_profit := put_max_profit
    put_sl := put_sl
    put_target := put_target
    total_max_profit := total_max_profit
    avg_premium := avg_premium }

/-- Embedding of `format_symbol` (`src/app.py:95-104`).
Python slices `expiry[-2:]`, `expiry[2:5]`, `expiry[:2]` are clamping;
`month[0]` raises `IndexError` on an empty slice, modelled by `none`. -/
def format_symbol (base expiry : String) (strike : Int) (option_type : String) :
    Option String :=
  let year := String.mk (expiry.data.drop (expiry.data.length - 2))
  let month := String.mk (((expiry.data.drop 2).take 3).map Char.toUpper)
  let day := String.mk (expiry.data.take 2)
  match month.data.head? with
  | some month_code =>
      some (base ++ year ++ String.mk [month_code] ++ day ++ toString strike ++ option_type)
  | none => none

/-- A Python value that can sit under the `lp` / `ltp` keys of a quote's
`v` dictionary: absent-or-`None`, a number, or a string. -/
inductive PyVal where
  | pynone
  | pynum (q : ℚ)
  | pystr (s : String)
  deriving Repr, DecidableEq

/-- Python truthiness for `PyVal`: `None`, `0` and `""` are falsy. -/
def pyTruthy : PyVal → Bool
  | .pynone => false
  | .pynum q => q ≠ 0
  | .pystr s => s ≠ ""

/-- Python `a or b`: the left operand if truthy, otherwise the right. -/
def pyOr (a b : PyVal) : PyVal :=
  if pyTruthy a then a else b

/-- Value of a run of decimal digit characters, `none` if any character
is not a digit. -/
def decDigits? (l : List Char) : Option ℕ :=
  if l.all Char.isDigit then
    some (l.foldl (fun a c => a * 10 + (c.toNat - 48)) 0)
  else none

/-- Strip leading and trailing whitespace from a character list, as
CPython `float` does to its string argument before parsing. -/
def stripWs (l : List Char) : List Char :=
  ((l.dropWhile Char.isWhitespace).reverse.dropWhile Char.isWhitespace).reverse

/-- Model of CPython `float(s)` on a string: an optional sign followed by
a plain decimal literal (surrounding whitespace stripped); anything else
raises `ValueError`, modelled by `none`. Exponents and special values
are not needed by any claim and are left unparsable. -/
def parseFloatQ (s : String) : Option ℚ :=
  let l := stripWs s.data
  let sgn : ℚ × List Char :=
    match l with
    | '-' :: r => (-1, r)
    | '+' :: r => (1, r)
    | _ => (1, l)
  match (sgn.2).span (fun c => c != '.') with
  | (ip, []) =>
      if ip = [] then none else (decDigits? ip).map (fun n => sgn.1 * n)
  | (ip, _ :: fp) =>
      if fp.any (fun c => c = '.') then none
      else if ip = [] ∧ fp = [] then none
      else match decDigits? ip, decDigits? fp with
        | some i, some f => some (sgn.1 * ((i : ℚ) + (f : ℚ) / (10 : ℚ) ^ fp.length))
        | _, _ => none

/-- Python `float(x)` on a `PyVal`; `none` models a raised exception
(`TypeError` on `None`, `ValueError` on an unparsable string). -/
def pyFloat : PyVal → Option ℚ
  | .pynone => none
  | .pynum q => some q
  | .pystr s => parseFloatQ s

/-- The `v` sub-dictionary of one quote entry: the values found under the
keys "lp" and "ltp" (`pynone` when the key is absent or maps to `None`). -/
structure VDict where
  lp : PyVal
  ltp : PyVal
  deriving Repr, DecidableEq

/-- One element of the quote response's `d` list: the symbol name under
"n" and the value dictionary under "v", each possibly absent. -/
structure QuoteEntry where
  n : Option String
  v : Option VDict
  deriving Repr, DecidableEq

/-- A brokerage quote response: top-level status under "s" (possibly
absent) and the quote list under "d" (absent defaults to `[]`). -/
structure QuoteResponse where
  s : Option String
  d : List QuoteEntry
  deriving Repr, DecidableEq

/-- Python dict assignment `d[k] = v` on an association list: overwrite
in place if the key exists, else append. -/
def pyDictSet (d : List (String × ℚ)) (k : String) (v : ℚ) : List (String × ℚ) :=
  if d.any (fun p => p.1 == k) then
    d.map (fun p => if p.1 == k then (k, v) else p)
  else d ++ [(k, v)]

/-- Python `d.get(k, 0)` on the LTP dictionary. -/
def pyGetD (d : List (String × ℚ)) (k : String) : ℚ :=
  (((d.find? (fun p => p.1 == k)).map Prod.snd)).getD 0

/-- Price computed for one quote entry, mirroring `src/app.py:117-119`:
`ltp = v.get("lp") or v.get("ltp") or 0` then
`float(ltp) if ltp else 0.0`; `none` models a raised exception. -/
def entryPrice (q : QuoteEntry) : Option ℚ :=
  let v := q.v.getD ⟨.pynone, .pynone⟩
  let ltp := pyOr (pyOr v.lp v.ltp) (.pynum 0)
  if pyTruthy ltp then pyFloat ltp else some 0

/-- The dictionary-building loop of `get_ltp_batch`
(`src/app.py:115-119`); `none` propagates an exception from any entry. -/
def buildLtpDict : List QuoteEntry → List (String × ℚ) → Option (List (String × ℚ))
  | [], acc => some acc
  | q :: rest, acc =>
    match entryPrice q with
    | none => none
    | some p => buildLtpDict rest (pyDictSet acc (q.n.getD "") p)

/-- Embedding of `get_ltp_batch` (`src/app.py:106-121`): when the
response status is "ok" the `d` list is folded into a symbol-to-price
dictionary, otherwise the initial empty dictionary is returned. -/
def get_ltp_batch (resp : QuoteResponse) : Option (List (String × ℚ)) :=
  if resp.s = some "ok" then buildLtpDict resp.d [] else some []

/-- What one cycle of the tracking loop produces besides the next value
of `st.session_state.tracking_active`. -/
inductive CycleOutcome where
  | rendered (metrics : CondorMetrics)
  | fetchError
  deriving Repr, DecidableEq

/-- One iteration of the `while st.session_state.tracking_active` loop of
`main_app` (`src/app.py:263-357`), given the fetched LTP dictionary: a
truthy (non-empty) dictionary reads each leg via `.get(sym, 0)`, computes
metrics and renders; an empty dictionary renders an error, sets
`tracking_active` to `False` and breaks. Returns the new
`tracking_active` flag and the cycle's outcome. -/
def pollCycle (ltpData : List (String × ℚ))
    (callSellSym callBuySym putSellSym putBuySym : String)
    (lot_size min_qty : ℚ) : Bool × CycleOutcome :=
  if ltpData.isEmpty then
    (false, .fetchError)
  else
    (true, .rendered (calculate_iron_condor
      (pyGetD ltpData callSellSym) (pyGetD ltpData callBuySym)
      (pyGetD ltpData putSellSym) (pyGetD ltpData putBuySym)
      lot_size min_qty))

/-- The token-exchange response of `session.generate_token()`: a
dictionary that may or may not contain an "access_token" field. -/
structure TokenResponse where
  access_token : Option String
  deriving Repr, DecidableEq

/-- The `while auth_code_received is None` wait loop of
`auto_authenticate` (`src/app.py:68-71`): `code t` is the value of the
shared `auth_code_received` variable at poll tick `t`; the loop sleeps
one second per tick and gives up once the 120-second budget (`fuel`) is
exhausted, returning `none` for the timeout path. -/
def waitForCode (code : ℕ → Option String) : ℕ → ℕ → Option String
  | t, fuel =>
    match code t with
    | some c => some c
    | none =>
      match fuel with
      | 0 => none
      | f + 1 => waitForCode code (t + 1) f

/-- Embedding of `auto_authenticate` (`src/app.py:42-80`) over a trace of
the received auth code and the broker's token exchange; returns the
`(token, error)` pair of the Python function. -/
def auto_authenticate (code : ℕ → Option String)
    (generate_token : String → TokenResponse) : Option String × Option String :=
  match waitForCode code 0 120 with
  | none => (none, some "Authentication timeout. Please try again.")
  | some c =>
    match (generate_token c).access_token with
    | some tok => (some tok, none)
    | none => (none, some "Token generation failed")

end IronCondor

namespace IronCondor

/-- If the auth code never arrives, the wait loop times out. -/
theorem waitForCode_none (code : ℕ → Option String) (h : ∀ t, code t = none) :
    ∀ fuel t, waitForCode code t fuel = none := by
  intro fuel
  induction fuel with
  | zero => intro t; rw [waitForCode, h t]
  | succ f ih => intro t; rw [waitForCode, h t]; exact ih (t + 1)

/-- C1: for every choice of the four leg prices, lot size and minimum
quantity (negative premium differentials included), each side of the
result of `calculate_iron_condor` satisfies exactly
premiumDiff = sellLtp - buyLtp, maxProfit = premiumDiff * lotSize * minQty,
stopLoss = 3 * maxProfit and target = 1.5 * maxProfit,
with no clamping or sign protection. -/
theorem calculate_iron_condor_side_formulas
    (cs cb ps pb lot mq : ℚ) :
    (calculate_iron_condor cs cb ps pb lot mq).call_premium_diff = cs - cb ∧
    (calculate_iron_condor cs cb ps pb lot mq).call_max_profit = (cs - cb) * lot * mq ∧
    (calculate_iron_condor cs cb ps pb lot mq).call_sl = 3 * ((cs - cb) * lot * mq) ∧
    (calculate_iron_condor cs cb ps pb lot mq).call_target = 1.5 * ((cs - cb) * lot * mq) ∧
    (calculate_iron_condor cs cb ps pb lot mq).put_premium_diff = ps - pb ∧
    (calculate_iron_condor cs cb ps pb lot mq).put_max_profit = (ps - pb) * lot * mq ∧
    (calculate_iron_condor cs cb ps pb lot mq).put_sl = 3 * ((ps - pb) * lot * mq) ∧
    (calculate_iron_condor cs cb ps pb lot mq).put_target = 1.5 * ((ps - pb) * lot * mq) := by
  refine ⟨rfl, rfl, ?_, ?_, rfl, rfl, ?_, ?_⟩ <;>
    simp only [calculate_iron_condor] <;> ring

/-- C2: for every input, the combined fields of `calculate_iron_condor`
satisfy total_max_profit = call_max_profit + put_max_profit and
avg_premium = (call_premium_diff + put_premium_diff) / 2. -/
theorem calculate_iron_condor_combined
    (cs cb ps pb lot mq : ℚ) :
    (calculate_iron_condor cs cb ps pb lot mq).total_max_profit =
      (calculate_iron_condor cs cb ps pb lot mq).call_max_profit +
      (calculate_iron_condor cs cb ps pb lot mq).put_max_profit ∧
    (calculate_iron_condor cs cb ps pb lot mq).avg_premium =
      ((calculate_iron_condor cs cb ps pb lot mq).call_premium_diff +
       (calculate_iron_condor cs cb ps pb lot mq).put_premium_diff) / 2 :=
  ⟨rfl, rfl⟩

/-- C7: `calculate_iron_condor` is deterministic and stateless — two
invocations on an identical snapshot of the four leg prices and the same
lot size and minimum quantity yield identical output value objects. -/
theorem calculate_iron_condor_deterministic
    (cs cb ps pb lot mq cs' cb' ps' pb' lot' mq' : ℚ)
    (h : (cs, cb, ps, pb, lot, mq) = (cs', cb', ps', pb', lot', mq')) :
    calculate_iron_condor cs cb ps pb lot mq =
      calculate_iron_condor cs' cb' ps' pb' lot' mq' := by
  simp only [Prod.mk.injEq] at h
  obtain ⟨h1, h2, h3, h4, h5, h6⟩ := h
  rw [h1, h2, h3, h4, h5, h6]

/-- Witness for C7 at a concrete snapshot. -/
theorem calculate_iron_condor_deterministic_witness :
    calculate_iron_condor 10 4 9 3 25 25 = calculate_iron_condor 10 4 9 3 25 25 :=
  calculate_iron_condor_deterministic 10 4 9 3 25 25 10 4 9 3 25 25 rfl

/-- C3: `format_symbol` is a pure deterministic function of its four
arguments, and on ("NSE:NIFTY", "11NOV25", 25700, "CE") it returns
exactly "NSE:NIFTY25N1125700CE". -/
theorem format_symbol_example :
    format_symbol "NSE:NIFTY" "11NOV25" 25700 "CE" = some "NSE:NIFTY25N1125700CE" ∧
    ∀ (b e : String) (s : Int) (t : String),
      format_symbol b e s t = format_symbol b e s t :=
  ⟨by decide, fun _ _ _ _ => rfl⟩

/-- C8: `format_symbol` is not injective in its expiry argument: the
distinct well-formed expiries "11JUN25" and "11JUL25" map to the same
contract symbol, all other arguments equal, because only the first
letter of the month name is used as the month code. -/
theorem format_symbol_expiry_collision :
    ("11JUN25" : String) ≠ "11JUL25" ∧
    format_symbol "NSE:NIFTY" "11JUN25" 25700 "CE" =
      format_symbol "NSE:NIFTY" "11JUL25" 25700 "CE" :=
  ⟨by decide, by decide⟩

/-- C9 counterexample: on the malformed 2-character expiry "11" the slice
`expiry[2:5]` is empty, so `month[0]` raises `IndexError`; the code does
not return a string for every input. -/
theorem format_symbol_short_expiry_crashes :
    format_symbol "NSE:NIFTY" "11" 25700 "CE" = none := by decide

/-- C9 amended: for every input whose expiry string has at least 3
characters — strike and option type arbitrary — `format_symbol`
terminates and returns a string; expiries shorter than 3 characters
raise `IndexError` at `month[0]`. -/
theorem format_symbol_total_on_expiry_ge3
    (base expiry : String) (strike : Int) (option_type : String)
    (h : 3 ≤ expiry.length) :
    (format_symbol base expiry strike option_type).isSome := by
  obtain ⟨data⟩ := expiry
  match data, h with
  | a :: b :: c :: rest, _ =>
    simp [format_symbol]

/-- Witness for the amended C9 at a concrete malformed-but-long-enough input. -/
theorem format_symbol_total_on_expiry_ge3_witness :
    (format_symbol "NSE:NIFTY" "99XYZ@@" (-5) "ZZ").isSome :=
  format_symbol_total_on_expiry_ge3 "NSE:NIFTY" "99XYZ@@" (-5) "ZZ" (by decide)

/-- C4: when the quote fetch returns an empty mapping, a tracking-loop
cycle sets `tracking_active` to `False` (back to Idle) with an error
indication, and no metrics are computed or rendered for that cycle. -/
theorem pollCycle_empty_quotes_stops
    (s1 s2 s3 s4 : String) (lot mq : ℚ) :
    pollCycle [] s1 s2 s3 s4 lot mq = (false, CycleOutcome.fetchError) :=
  rfl

/-- C5: if no auth code ever arrives, `auto_authenticate` returns the
timeout failure after the fixed 120-second window — no token, and the
failure is the function's final answer for that attempt. -/
theorem auto_authenticate_timeout
    (code : ℕ → Option String) (generate_token : String → TokenResponse)
    (h : ∀ t, code t = none) :
    auto_authenticate code generate_token =
      (none, some "Authentication timeout. Please try again.") := by
  unfold auto_authenticate
  rw [waitForCode_none code h 120 0]

/-- Witness for C5: a trace on which the code never arrives. -/
theorem auto_authenticate_timeout_witness :
    auto_authenticate (fun _ => none) (fun c => ⟨some c⟩) =
      (none, some "Authentication timeout. Please try again.") :=
  auto_authenticate_timeout (fun _ => none) (fun c => ⟨some c⟩) (fun _ => rfl)

/-- C6 counterexample: a quote entry whose price field holds the truthy
unparsable string "N/A" makes `float(ltp)` raise `ValueError`, aborting
the whole fetch — the symbol is neither omitted nor mapped to zero, and
no mapping is returned at all. -/
theorem get_ltp_batch_unparsable_price_raises :
    (get_ltp_batch
      ⟨some "ok", [⟨some "NSE:NIFTY25N1125700CE", some ⟨.pystr "N/A", .pynone⟩⟩]⟩).isSome
      = false := by
  decide

/-- C6 amended: for every symbol whose price fields are absent (the "v"
dictionary missing, or both "lp" and "ltp" absent), `get_ltp_batch` maps
that symbol to zero rather than signaling a per-symbol failure, and a
symbol absent from the returned mapping is read as a zero price by the
polling loop's `.get(sym, 0)`; but a truthy unparsable string price
raises an exception that aborts the whole fetch. -/
theorem get_ltp_batch_absent_price_is_zero :
    (∀ n : Option String, entryPrice ⟨n, none⟩ = some 0) ∧
    (∀ n : Option String, entryPrice ⟨n, some ⟨.pynone, .pynone⟩⟩ = some 0) ∧
    (∀ (d : List (String × ℚ)) (k : String),
      d.find? (fun p => p.1 == k) = none → pyGetD d k = 0) := by
  refine ⟨fun n => rfl, fun n => rfl, fun d k h => ?_⟩
  rw [pyGetD, h]
  rfl

/-- Witness for the amended C6: the loop reads a symbol missing from a
concrete non-empty mapping as zero. -/
theorem get_ltp_batch_absent_price_is_zero_witness :
    pyGetD [("NSE:NIFTY25N1125700CE", (12 : ℚ))] "NSE:NIFTY25N1125750CE" = 0 :=
  get_ltp_batch_absent_price_is_zero.2.2
    [("NSE:NIFTY25N1125700CE", (12 : ℚ))] "NSE:NIFTY25N1125750CE" (by decide)

/-- C10: whenever the response's top-level status "s" is anything other
than "ok", `get_ltp_batch` returns the empty mapping regardless of the
price data present in `d`. -/
theorem get_ltp_batch_non_ok_empty
    (resp : QuoteResponse) (h : resp.s ≠ some "ok") :
    get_ltp_batch resp = some [] := by
  rw [get_ltp_batch, if_neg h]

/-- Witness for C10: a non-ok response carrying price data still yields
the empty mapping. -/
theorem get_ltp_batch_non_ok_empty_witness :
    get_ltp_batch
      ⟨some "error", [⟨some "NSE:NIFTY25N1125700CE", some ⟨.pynum 12, .pynone⟩⟩]⟩
      = some [] :=
  get_ltp_batch_non_ok_empty
    ⟨some "error", [⟨some "NSE:NIFTY25N1125700CE", some ⟨.pynum 12, .pynone⟩⟩]⟩
    (by decide)

end IronCondor
